import Mathlib

/-!
Verification of the Bluetooth Ranging Service (RAS) implementation:
ranging-data buffer pool, RRSP control-point handler and segment streamer,
and RREQ receive-side reassembly.

Shallow embedding translated from:
* `include/bluetooth/services/ras.h` (`struct ras_rd_buffer`, header layouts)
* `subsys/bluetooth/services/ras/ras_rd_buffer.c` (buffer pool and ingest;
  the maintained variant, which keys lookups on the ranging counter)
* `subsys/bluetooth/services/ras/ras_rrsp.c` (`rrsp_chunk_send`)
* `subsys/bluetooth/services/ras/ras_rrsp_rascp.c` (`rrsp_rascp_cmd_handle`)
* the RREQ client (`ras_rreq` functions: on-demand segment reception,
  control-point response handling, completion callback).

Machine integers are modelled as `Nat` with explicit `% 2^w` where wrap-around
matters; error codes are `Int` (negative errno values); byte regions are
`List Nat`; pointers into the pool are indices (`Nat`), a free slot being
`conn = none`.
-/

namespace RAS

/-- RAS control point response codes (`enum rascp_rsp_code`). -/
def RASCP_RESPONSE_SUCCESS : Nat := 1

def RASCP_RESPONSE_OPCODE_NOT_SUPPORTED : Nat := 2

def RASCP_RESPONSE_INVALID_PARAMETER : Nat := 3

def RASCP_RESPONSE_PROCEDURE_NOT_COMPLETED : Nat := 6

def RASCP_RESPONSE_SERVER_BUSY : Nat := 7

def RASCP_RESPONSE_NO_RECORDS_FOUND : Nat := 8

/-- Size in bytes of the packed `struct ras_ranging_header`
(12-bit counter + 4-bit config id share two bytes, then tx power and
antenna-path mask). -/
def rangingHeaderLen : Nat := 4

/-- Size in bytes of the packed `struct ras_subevent_header`. -/
def subeventHeaderLen : Nat := 8

/-- One slot of the ranging-data buffer pool: `struct ras_rd_buffer`.
`conn` is the owning connection handle (`none` = slot free); `storage` is the
flat on-wire byte image `procedure.buf` (ranging header followed by the
subevents region). -/
structure RdBuffer where
  conn : Option Nat
  ranging_counter : Nat
  subevent_cursor : Nat
  read_cursor : Nat
  ready : Bool
  busy : Bool
  acked : Bool
  refcount : Nat
  storage : List Nat
  deriving DecidableEq

/-- Embedding of `bt_ras_rd_buffer_bytes_pull`: copy up to `max_data_len`
bytes of the flat image starting at `read_cursor`, advance the cursor and
return the byte count.  Returns the updated buffer, the copied bytes and the
count. -/
def bt_ras_rd_buffer_bytes_pull (buf : RdBuffer) (max_data_len : Nat) :
    RdBuffer × List Nat × Nat :=
  if buf.ready = false then (buf, [], 0)
  else
    let buf_len := rangingHeaderLen + buf.subevent_cursor
    let remaining := buf_len - buf.read_cursor
    let pull_bytes := min max_data_len remaining
    let out := (buf.storage.drop buf.read_cursor).take pull_bytes
    ({ buf with read_cursor := buf.read_cursor + pull_bytes }, out, pull_bytes)

/-- Embedding of `bt_ras_rd_buffer_rewind`: move `read_cursor` back by
`data_len` on a ready buffer; a buffer that is not ready is left unchanged. -/
def bt_ras_rd_buffer_rewind (buf : RdBuffer) (data_len : Nat) : RdBuffer :=
  if buf.ready = false then buf
  else { buf with read_cursor := buf.read_cursor - data_len }

/-- Theorem-support: the flat-image length `sizeof(ras_ranging_header) +
subevent_cursor` used by the pull. -/
def flatImageLen (buf : RdBuffer) : Nat := rangingHeaderLen + buf.subevent_cursor

/-- C9: on a ready buffer whose `read_cursor` does not exceed the flat image
length `L`, `bytes_pull` copies `min n (L - read_cursor)` bytes of the flat
image starting at `read_cursor`, advances `read_cursor` by exactly that count
and returns it; it returns 0 once `read_cursor = L`, and the new cursor never
exceeds `L`. -/
theorem bytes_pull_spec (buf : RdBuffer) (n : Nat)
    (hready : buf.ready = true)
    (hrc : buf.read_cursor ≤ flatImageLen buf) :
    (bt_ras_rd_buffer_bytes_pull buf n).2.2 =
      min n (flatImageLen buf - buf.read_cursor) ∧
    (bt_ras_rd_buffer_bytes_pull buf n).2.1 =
      (buf.storage.drop buf.read_cursor).take
        (min n (flatImageLen buf - buf.read_cursor)) ∧
    (bt_ras_rd_buffer_bytes_pull buf n).1.read_cursor =
      buf.read_cursor + (bt_ras_rd_buffer_bytes_pull buf n).2.2 ∧
    (buf.read_cursor = flatImageLen buf →
      (bt_ras_rd_buffer_bytes_pull buf n).2.2 = 0) ∧
    (bt_ras_rd_buffer_bytes_pull buf n).1.read_cursor ≤ flatImageLen buf := by
  have hpull : bt_ras_rd_buffer_bytes_pull buf n =
      ({ buf with read_cursor :=
          buf.read_cursor + min n (flatImageLen buf - buf.read_cursor) },
       (buf.storage.drop buf.read_cursor).take
          (min n (flatImageLen buf - buf.read_cursor)),
       min n (flatImageLen buf - buf.read_cursor)) := by
    simp [bt_ras_rd_buffer_bytes_pull, hready, flatImageLen]
  rw [hpull]
  refine ⟨rfl, rfl, rfl, ?_, ?_⟩
  · intro h
    simp [h]
  · simp only [flatImageLen] at hrc ⊢
    omega

/-- Witness for C9 at a concrete ready buffer. -/
theorem bytes_pull_spec_witness :
    (bt_ras_rd_buffer_bytes_pull
        { conn := some 0, ranging_counter := 7, subevent_cursor := 2,
          read_cursor := 1, ready := true, busy := false, acked := false,
          refcount := 0, storage := [10, 11, 12, 13, 14, 15] } 3).2.2 =
      min 3 (flatImageLen
        { conn := some 0, ranging_counter := 7, subevent_cursor := 2,
          read_cursor := 1, ready := true, busy := false, acked := false,
          refcount := 0, storage := [10, 11, 12, 13, 14, 15] } - 1) := by
  exact (bytes_pull_spec _ 3 rfl (by decide)).1

/-- Shared fact: pulling and then rewinding by the returned count restores
the buffer exactly, whatever the `ready` flag. -/
theorem pull_then_rewind_eq (buf : RdBuffer) (n : Nat) :
    bt_ras_rd_buffer_rewind (bt_ras_rd_buffer_bytes_pull buf n).1
        (bt_ras_rd_buffer_bytes_pull buf n).2.2 = buf := by
  by_cases h : buf.ready = false
  · simp [bt_ras_rd_buffer_bytes_pull, bt_ras_rd_buffer_rewind, h]
  · simp only [Bool.not_eq_false] at h
    simp only [bt_ras_rd_buffer_bytes_pull, bt_ras_rd_buffer_rewind, h]
    cases buf
    simp_all

/-- C10: pulling and then rewinding by the returned count restores the buffer
exactly (all fields, including `read_cursor` and the stored bytes); on a
buffer that is not ready, the pull returns 0 bytes and rewinding by any amount
changes nothing. -/
theorem pull_rewind_roundtrip (buf : RdBuffer) (n : Nat) :
    bt_ras_rd_buffer_rewind (bt_ras_rd_buffer_bytes_pull buf n).1
        (bt_ras_rd_buffer_bytes_pull buf n).2.2 = buf ∧
    (buf.ready = false →
      (bt_ras_rd_buffer_bytes_pull buf n).2.2 = 0 ∧
      ∀ m, bt_ras_rd_buffer_rewind buf m = buf) := by
  constructor
  · exact pull_then_rewind_eq buf n
  · intro h
    refine ⟨by simp [bt_ras_rd_buffer_bytes_pull, h], fun m => ?_⟩
    simp [bt_ras_rd_buffer_rewind, h]

/-- Witness for C10 at a concrete buffer whose `ready` flag is clear. -/
theorem pull_rewind_roundtrip_witness :
    bt_ras_rd_buffer_rewind
        (bt_ras_rd_buffer_bytes_pull
          { conn := some 0, ranging_counter := 7, subevent_cursor := 2,
            read_cursor := 1, ready := false, busy := true, acked := false,
            refcount := 0, storage := [10, 11, 12, 13, 14, 15] } 3).1
        (bt_ras_rd_buffer_bytes_pull
          { conn := some 0, ranging_counter := 7, subevent_cursor := 2,
            read_cursor := 1, ready := false, busy := true, acked := false,
            refcount := 0, storage := [10, 11, 12, 13, 14, 15] } 3).2.2 =
      { conn := some 0, ranging_counter := 7, subevent_cursor := 2,
        read_cursor := 1, ready := false, busy := true, acked := false,
        refcount := 0, storage := [10, 11, 12, 13, 14, 15] } ∧
    (bt_ras_rd_buffer_bytes_pull
        { conn := some 0, ranging_counter := 7, subevent_cursor := 2,
          read_cursor := 1, ready := false, busy := true, acked := false,
          refcount := 0, storage := [10, 11, 12, 13, 14, 15] } 3).2.2 = 0 := by
  exact ⟨(pull_rewind_roundtrip _ 3).1, ((pull_rewind_roundtrip _ 3).2 rfl).1⟩

/-- Embedding of `buffer_get`: index of the first pool slot matching the
connection, ranging counter and the requested `ready`/`busy` flags. -/
def buffer_get : List RdBuffer → Nat → Nat → Bool → Bool → Option Nat
  | [], _, _, _, _ => none
  | b :: rest, conn, counter, ready, busy =>
    if b.conn = some conn ∧ b.ranging_counter = counter ∧
       b.ready = ready ∧ b.busy = busy then
      some 0
    else (buffer_get rest conn counter ready busy).map (· + 1)

/-- Embedding of `bt_ras_rd_buffer_ready_check`. -/
def bt_ras_rd_buffer_ready_check (pool : List RdBuffer) (conn counter : Nat) :
    Bool :=
  (buffer_get pool conn counter true false).isSome

/-- Embedding of `bt_ras_rd_buffer_claim`: increment the refcount of the
matching ready buffer and hand back its index (the pointer). -/
def bt_ras_rd_buffer_claim (pool : List RdBuffer) (conn counter : Nat) :
    List RdBuffer × Option Nat :=
  match buffer_get pool conn counter true false with
  | some i =>
    match pool[i]? with
    | some b => (pool.set i { b with refcount := b.refcount + 1 }, some i)
    | none => (pool, none)
  | none => (pool, none)

/-- Embedding of `bt_ras_rd_buffer_release` on a (non-null) buffer: fails with
`-EINVAL` when the refcount is already zero, otherwise decrements it. -/
def bt_ras_rd_buffer_release (buf : RdBuffer) : RdBuffer × Int :=
  if buf.refcount = 0 then (buf, -22)
  else ({ buf with refcount := buf.refcount - 1 }, 0)

/-- Embedding of `rd_buffer_init`. The C function does not touch `acked` or
the storage contents. -/
def rd_buffer_init (conn : Nat) (buf : RdBuffer) (ranging_counter : Nat) :
    RdBuffer :=
  { buf with conn := some conn, ranging_counter := ranging_counter,
             ready := false, busy := true, refcount := 0,
             subevent_cursor := 0, read_cursor := 0 }

/-- Embedding of `rd_buffer_free`. The C function does not touch `acked`. -/
def rd_buffer_free (buf : RdBuffer) : RdBuffer :=
  { buf with conn := none, ready := false, busy := false, refcount := 0,
             subevent_cursor := 0, read_cursor := 0 }

/-- Accumulator of the single scan loop inside `rd_buffer_alloc`. -/
structure AllocScan where
  conn_buffer_count : Nat
  oldest_ranging_counter : Nat
  available_oldest : Option Nat
  available_free : Option Nat
  deriving DecidableEq

/-- One iteration of the `rd_buffer_alloc` scan loop over slot `i`. -/
def allocScanStep (conn : Nat) (acc : AllocScan) (i : Nat) (b : RdBuffer) :
    AllocScan :=
  let acc :=
    if b.conn = some conn then
      let acc := { acc with conn_buffer_count := acc.conn_buffer_count + 1 }
      if b.ready = true ∧ b.busy = false ∧ b.refcount = 0 ∧
         b.ranging_counter < acc.oldest_ranging_counter then
        { acc with oldest_ranging_counter := b.ranging_counter,
                   available_oldest := some i }
      else acc
    else acc
  if acc.available_free = none ∧ b.conn = none then
    { acc with available_free := some i }
  else acc

/-- Embedding of `rd_buffer_alloc`.  Returns the updated pool, the index of
the allocated slot (`none` on allocation failure, which in C includes the
null dereference when the free-slot pointer is null), and the ranging counter
passed to `notify_rd_overwritten` when a victim buffer was recycled. -/
def rd_buffer_alloc (pool : List RdBuffer) (conn ranging_counter : Nat)
    (bufsPerConn : Nat) : List RdBuffer × Option Nat × Option Nat :=
  let scan := pool.enum.foldl
    (fun acc p => allocScanStep conn acc p.1 p.2)
    { conn_buffer_count := 0, oldest_ranging_counter := 65535,
      available_oldest := none, available_free := none }
  if scan.conn_buffer_count < bufsPerConn then
    match scan.available_free with
    | some i =>
      match pool[i]? with
      | some b => (pool.set i (rd_buffer_init conn b ranging_counter),
                   some i, none)
      | none => (pool, none, none)
    | none => (pool, none, none)
  else
    match scan.available_oldest with
    | some i =>
      match pool[i]? with
      | some b =>
        (pool.set i (rd_buffer_init conn (rd_buffer_free b) ranging_counter),
         some i, some scan.oldest_ranging_counter)
      | none => (pool, none, none)
    | none => (pool, none, none)

/-- Modelled from the spec (the 12-bit wrap-around comparison of ranging
counters is described only in the natural-language design, not in the code):
counter `a` precedes counter `b` modulo `2^12` when stepping `a` forward by
at least one and fewer than `2^11` positions reaches `b`. -/
def wrapPreceding (a b : Nat) : Prop :=
  (b + 4096 - a % 4096) % 4096 ≠ 0 ∧ (b + 4096 - a % 4096) % 4096 < 2048

instance (a b : Nat) : Decidable (wrapPreceding a b) := by
  unfold wrapPreceding
  infer_instance

/-- A ready, not busy, unreferenced, un-acked buffer owned by connection 0
with the given ranging counter. -/
def evictableBuf (counter : Nat) : RdBuffer :=
  { conn := some 0, ranging_counter := counter, subevent_cursor := 4,
    read_cursor := 0, ready := true, busy := false, acked := false,
    refcount := 0, storage := [1, 2, 3, 4, 5, 6, 7, 8] }

/-- C5 counterexample: with two evictable buffers holding counters 4095 and 0
(counter 0 being the successor of 4095 after the 12-bit wrap, hence the
newest), `rd_buffer_alloc` evicts and notifies counter 0 — the numerically
smallest — even though counter 4095 precedes counter 0 in 12-bit wrap-around
order, i.e. the victim is not the wrap-aware oldest buffer. -/
theorem rd_buffer_alloc_ignores_wraparound :
    (rd_buffer_alloc [evictableBuf 4095, evictableBuf 0] 0 7 2).2.2 =
      some 0 ∧
    (rd_buffer_alloc [evictableBuf 4095, evictableBuf 0] 0 7 2).2.1 =
      some 1 ∧
    wrapPreceding 4095 0 ∧ ¬ wrapPreceding 0 4095 := by
  refine ⟨rfl, rfl, by decide, by decide⟩

/-- C6 failing input: a single evictable buffer that has already been ACKed. -/
def ackedBuf : RdBuffer :=
  { conn := some 0, ranging_counter := 1, subevent_cursor := 4,
    read_cursor := 0, ready := true, busy := false, acked := true,
    refcount := 0, storage := [1, 2, 3, 4, 5, 6, 7, 8] }

/-- C6 counterexample: evicting an ACKed buffer still emits the overwritten
notification — `rd_buffer_alloc` calls `notify_rd_overwritten`
unconditionally in the recycle branch, never consulting the victim's `acked`
flag, contrary to the flag's documented purpose. -/
theorem rd_buffer_alloc_notifies_overwritten_despite_acked :
    ackedBuf.acked = true ∧
    (rd_buffer_alloc [ackedBuf] 0 3 1).2.2 = some 1 ∧
    (rd_buffer_alloc [ackedBuf] 0 3 1).2.1 = some 0 := by
  exact ⟨rfl, rfl, rfl⟩

/-- C6 general form: whenever the recycle branch is taken (the connection is
at its buffer quota and a victim exists), the overwritten notification is
emitted — independently of the victim's `acked` flag. -/
theorem rd_buffer_alloc_overwritten_notification_unconditional
    (pool : List RdBuffer) (conn ranging_counter bufsPerConn : Nat)
    (hfull : ¬ (pool.enum.foldl
        (fun acc p => allocScanStep conn acc p.1 p.2)
        { conn_buffer_count := 0, oldest_ranging_counter := 65535,
          available_oldest := none, available_free := none
          : AllocScan }).conn_buffer_count < bufsPerConn)
    (i : Nat) (b : RdBuffer)
    (hvictim : (pool.enum.foldl
        (fun acc p => allocScanStep conn acc p.1 p.2)
        { conn_buffer_count := 0, oldest_ranging_counter := 65535,
          available_oldest := none, available_free := none
          : AllocScan }).available_oldest = some i)
    (hb : pool[i]? = some b) :
    (rd_buffer_alloc pool conn ranging_counter bufsPerConn).2.2 ≠ none := by
  simp only [rd_buffer_alloc, hfull, if_false, hvictim, hb]
  simp

/-- Witness for the C6 general form at the concrete ACKed-buffer pool. -/
theorem rd_buffer_alloc_overwritten_unconditional_witness :
    (rd_buffer_alloc [ackedBuf] 0 3 1).2.2 ≠ none := by
  exact rd_buffer_alloc_overwritten_notification_unconditional
    [ackedBuf] 0 3 1 (by decide) 0 ackedBuf (by decide) rfl

/-- One parsed CS step as handed to `process_step_data` by
`bt_le_cs_step_data_parse` (`step->channel` is dropped by the ingest). -/
structure CsStep where
  mode : Nat
  channel : Nat
  data : List Nat
  deriving DecidableEq

/-- The fields of `struct bt_conn_le_cs_subevent_result` consumed by the
ingest.  Signed controller fields are carried as their two's-complement bit
patterns (the C code copies them through unchanged). -/
structure SubeventResult where
  procedure_counter : Nat
  config_id : Nat
  start_acl_conn_event : Nat
  frequency_compensation : Nat
  procedure_done_status : Nat
  subevent_done_status : Nat
  procedure_abort_reason : Nat
  subevent_abort_reason : Nat
  reference_power_level : Nat
  num_steps_reported : Nat
  step_data_buf : Option (List CsStep)
  deriving DecidableEq

/-- HCI procedure done status: complete. -/
def BT_CONN_LE_CS_PROCEDURE_COMPLETE : Nat := 0

/-- HCI procedure done status: aborted (0xF). -/
def BT_CONN_LE_CS_PROCEDURE_ABORTED : Nat := 15

/-- Overwrite `bytes.length` bytes of `storage` starting at byte offset
`off` (the pointer-based struct writes of the ingest). -/
def writeBytes (storage : List Nat) (off : Nat) (bytes : List Nat) :
    List Nat :=
  storage.take off ++ bytes ++ storage.drop (off + bytes.length)

/-- Byte image of the packed `struct ras_ranging_header` as initialised by the
ingest: 12-bit counter, 4-bit config id, `selected_tx_power = 0`,
`antenna_paths_mask = 1`. -/
def encodeRangingHeader (counter config_id : Nat) : List Nat :=
  [counter % 256, counter / 256 % 16 + config_id % 16 * 16, 0, 1]

/-- Byte image of the packed `struct ras_subevent_header` filled from a
subevent result (little-endian 16-bit fields, nibble-packed status/reason
bytes, done status and abort reason truncated to their 4-bit fields). -/
def encodeSubeventHeader (r : SubeventResult) : List Nat :=
  [r.start_acl_conn_event % 256, r.start_acl_conn_event / 256 % 256,
   r.frequency_compensation % 256, r.frequency_compensation / 256 % 256,
   r.procedure_done_status % 16 + r.subevent_done_status % 16 * 16,
   r.procedure_abort_reason % 16 + r.subevent_abort_reason % 16 * 16,
   r.reference_power_level % 256,
   r.num_steps_reported % 256]

/-- The step-mode column written by `process_step_data` (one mode byte per
parsed step). -/
def stepModes (steps : List CsStep) : List Nat :=
  steps.map (fun s => s.mode % 256)

/-- The step-data bytes appended by `process_step_data`, in parse order. -/
def stepDataBytes (steps : List CsStep) : List Nat :=
  (steps.map CsStep.data).flatten

/-- First phase of `subevent_data_available`: find the busy buffer for this
`(conn, procedure_counter)`, or allocate one and initialise its ranging
header.  Returns the pool, the slot index with the buffer value the C code
holds through its `buf` pointer, and any overwritten notification emitted by
the allocation. -/
def subevent_acquire (pool : List RdBuffer)
    (conn counter config_id bufsPerConn : Nat) :
    List RdBuffer × Option (Nat × RdBuffer) × Option Nat :=
  match buffer_get pool conn counter false true with
  | some i =>
    match pool[i]? with
    | some b => (pool, some (i, b), none)
    | none => (pool, none, none)
  | none =>
    match rd_buffer_alloc pool conn counter bufsPerConn with
    | (pool1, some i, ow) =>
      match pool1[i]? with
      | some b =>
        let b2 :=
          { b with storage :=
              writeBytes b.storage 0 (encodeRangingHeader counter config_id) }
        (pool1, some (i, b2), ow)
      | none => (pool1, none, ow)
    | (pool1, none, ow) => (pool1, none, ow)

/-- Output of one ingest invocation: the pool, the slot written (index plus
the final buffer value stored there), the `new_ranging_data_received`
callback invocations (callback id, connection, counter), and the counter of
any overwritten notification. -/
structure IngestOut where
  pool : List RdBuffer
  written : Option (Nat × RdBuffer)
  ready_invocations : List (Nat × Nat × Nat)
  overwritten_notified : Option Nat
  deriving DecidableEq

/-- Embedding of `subevent_data_available` (the ingest): append a subevent
header, the step-mode column and the step data to the buffer, advance
`subevent_cursor`, and when the 4-bit `ranging_done_status` equals
`BT_CONN_LE_CS_PROCEDURE_COMPLETE` mark the buffer ready/not-busy and invoke
every registered `new_ranging_data_received` callback.  `cbs` is the
registered callback list; `config_id` is written into the ranging header when
a fresh buffer is allocated. -/
def subevent_data_available (pool : List RdBuffer) (cbs : List Nat)
    (conn : Nat) (result : SubeventResult) (bufsPerConn : Nat) : IngestOut :=
  match subevent_acquire pool conn result.procedure_counter result.config_id
      bufsPerConn with
  | (pool1, none, ow) => ⟨pool1, none, [], ow⟩
  | (pool1, some (i, b0), ow) =>
    let hdrOff := rangingHeaderLen + b0.subevent_cursor
    let st1 := writeBytes b0.storage hdrOff (encodeSubeventHeader result)
    let cur1 := b0.subevent_cursor + subeventHeaderLen
    let modeOff := rangingHeaderLen + cur1
    let cur2 := cur1 + result.num_steps_reported % 256
    let dataOff := rangingHeaderLen + cur2
    let stepPart : List Nat × Nat :=
      match result.step_data_buf with
      | some steps =>
        let st2 := writeBytes st1 modeOff (stepModes steps)
        let sd := stepDataBytes steps
        (writeBytes st2 dataOff sd, cur2 + sd.length)
      | none => (st1, cur2)
    if result.procedure_done_status % 16 = BT_CONN_LE_CS_PROCEDURE_COMPLETE
    then
      let b :=
        { b0 with
          storage := stepPart.1
          subevent_cursor := stepPart.2
          ready := true
          busy := false }
      ⟨pool1.set i b, some (i, b),
       cbs.map (fun c => (c, conn, result.procedure_counter)), ow⟩
    else
      let b :=
        { b0 with
          storage := stepPart.1
          subevent_cursor := stepPart.2 }
      ⟨pool1.set i b, some (i, b), [], ow⟩

/-- Setting a present index and reading it back yields the new value. -/
theorem set_getElem?_self {α : Type} (l : List α) (i : Nat) (x b : α)
    (h : l[i]? = some b) : (l.set i x)[i]? = some x := by
  rw [List.getElem?_set_self']
  simp [h]

/-- Soundness of `buffer_get`: a returned index designates a slot matching
the search key and flags. -/
theorem buffer_get_sound (conn counter : Nat) (r bu : Bool) :
    ∀ (pool : List RdBuffer) (i : Nat),
      buffer_get pool conn counter r bu = some i →
      ∃ b, pool[i]? = some b ∧ b.conn = some conn ∧
        b.ranging_counter = counter ∧ b.ready = r ∧ b.busy = bu := by
  intro pool
  induction pool with
  | nil => intro i h; simp [buffer_get] at h
  | cons hd tl ih =>
    intro i h
    simp only [buffer_get] at h
    split at h
    · rename_i hmatch
      cases h
      exact ⟨hd, by simp, hmatch.1, hmatch.2.1, hmatch.2.2.1, hmatch.2.2.2⟩
    · rcases Option.map_eq_some'.mp h with ⟨j, hj, rfl⟩
      rcases ih j hj with ⟨b, hb, h1, h2, h3, h4⟩
      exact ⟨b, by simpa using hb, h1, h2, h3, h4⟩

/-- A successful `rd_buffer_alloc` leaves a freshly initialised buffer at the
returned index. -/
theorem rd_buffer_alloc_written (pool : List RdBuffer) (conn k n i : Nat)
    (h : (rd_buffer_alloc pool conn k n).2.1 = some i) :
    ∃ b, (rd_buffer_alloc pool conn k n).1[i]? =
      some (rd_buffer_init conn b k) := by
  rcases hres : rd_buffer_alloc pool conn k n with ⟨pool1, alloc, ow⟩
  have h1 : alloc = some i := by rw [hres] at h; simpa using h
  suffices hs : ∃ b, pool1[i]? = some (rd_buffer_init conn b k) by
    simpa using hs
  simp only [rd_buffer_alloc] at hres
  split at hres
  · split at hres
    · rename_i j hj
      split at hres
      · rename_i b hb
        simp only [Prod.mk.injEq] at hres
        obtain ⟨rfl, rfl, rfl⟩ := hres
        obtain rfl : j = i := by simpa using h1
        exact ⟨b, set_getElem?_self _ _ _ _ hb⟩
      · simp only [Prod.mk.injEq] at hres
        obtain ⟨rfl, rfl, rfl⟩ := hres
        simp at h1
    · simp only [Prod.mk.injEq] at hres
      obtain ⟨rfl, rfl, rfl⟩ := hres
      simp at h1
  · split at hres
    · rename_i j hj
      split at hres
      · rename_i b hb
        simp only [Prod.mk.injEq] at hres
        obtain ⟨rfl, rfl, rfl⟩ := hres
        obtain rfl : j = i := by simpa using h1
        exact ⟨rd_buffer_free b, set_getElem?_self _ _ _ _ hb⟩
      · simp only [Prod.mk.injEq] at hres
        obtain ⟨rfl, rfl, rfl⟩ := hres
        simp at h1
    · simp only [Prod.mk.injEq] at hres
      obtain ⟨rfl, rfl, rfl⟩ := hres
      simp at h1

/-- Soundness of `subevent_acquire`: the acquired buffer is busy, not ready,
owned by the connection, and its slot is present in the returned pool. -/
theorem subevent_acquire_sound (pool : List RdBuffer)
    (conn k cfg n : Nat) (pool1 : List RdBuffer) (i : Nat) (b : RdBuffer)
    (ow : Option Nat)
    (h : subevent_acquire pool conn k cfg n = (pool1, some (i, b), ow)) :
    b.busy = true ∧ b.ready = false ∧ b.conn = some conn ∧
      ∃ bb, pool1[i]? = some bb := by
  simp only [subevent_acquire] at h
  split at h
  · rename_i j hj
    split at h
    · rename_i bf hbf
      simp only [Prod.mk.injEq, Option.some.injEq] at h
      obtain ⟨rfl, ⟨rfl, rfl⟩, rfl⟩ := h
      rcases buffer_get_sound conn k false true pool j hj with
        ⟨b', hb', hc, _, hr, hbu⟩
      obtain rfl : b' = bf := by rw [hb'] at hbf; exact Option.some.inj hbf
      exact ⟨hbu, hr, hc, b', hbf⟩
    · simp at h
  · split at h
    · rename_i p1 j ow1 halloc
      split at h
      · rename_i bold hbold
        simp only [Prod.mk.injEq, Option.some.injEq] at h
        obtain ⟨rfl, ⟨rfl, rfl⟩, rfl⟩ := h
        have h21 : (rd_buffer_alloc pool conn k n).2.1 = some j := by
          rw [halloc]
        rcases rd_buffer_alloc_written pool conn k n j h21 with ⟨bsrc, hbsrc⟩
        rw [halloc] at hbsrc
        simp only at hbsrc
        obtain rfl : bold = rd_buffer_init conn bsrc k := by
          rw [hbold] at hbsrc; exact Option.some.inj hbsrc
        exact ⟨rfl, rfl, rfl, _, hbold⟩
      · simp at h
    · simp at h

/-- C7 (amended): on `procedure_done_status` complete (4-bit field 0) the
written buffer ends not-busy and ready and every registered on-ready callback
is invoked with the connection and procedure counter; on any other done
status (in particular aborted, 0xF) no callback fires and the buffer is not
freed: it stays allocated to the connection and busy. -/
theorem subevent_ingest_done_status (pool : List RdBuffer) (cbs : List Nat)
    (conn : Nat) (result : SubeventResult) (k i : Nat) (b : RdBuffer)
    (hw : (subevent_data_available pool cbs conn result k).written =
      some (i, b)) :
    (result.procedure_done_status % 16 = BT_CONN_LE_CS_PROCEDURE_COMPLETE →
      b.ready = true ∧ b.busy = false ∧
      (subevent_data_available pool cbs conn result k).ready_invocations =
        cbs.map (fun c => (c, conn, result.procedure_counter)) ∧
      (subevent_data_available pool cbs conn result k).pool[i]? = some b) ∧
    (result.procedure_done_status % 16 ≠ BT_CONN_LE_CS_PROCEDURE_COMPLETE →
      b.ready = false ∧ b.busy = true ∧ b.conn = some conn ∧
      (subevent_data_available pool cbs conn result k).ready_invocations
        = [] ∧
      (subevent_data_available pool cbs conn result k).pool[i]? = some b)
    := by
  rcases hacq : subevent_acquire pool conn result.procedure_counter
      result.config_id k with ⟨pool1, ob, ow⟩
  rcases ob with _ | ⟨j, b0⟩
  · simp [subevent_data_available, hacq] at hw
  · rcases subevent_acquire_sound pool conn result.procedure_counter
      result.config_id k pool1 j b0 ow hacq with ⟨hbusy, hready, hconn, bb, hbb⟩
    by_cases hdone :
        result.procedure_done_status % 16 = BT_CONN_LE_CS_PROCEDURE_COMPLETE
    · simp only [subevent_data_available, hacq, hdone, if_true] at hw
      simp only [Option.some.injEq, Prod.mk.injEq] at hw
      obtain ⟨rfl, hb⟩ := hw
      constructor
      · intro _
        refine ⟨by rw [← hb], by rw [← hb], ?_, ?_⟩
        · simp [subevent_data_available, hacq, hdone]
        · have : (subevent_data_available pool cbs conn result k).pool =
              pool1.set j ((subevent_data_available pool cbs conn
                result k).written.getD (0, b0)).2 := by
            simp [subevent_data_available, hacq, hdone]
          rw [this]
          have hwr : (subevent_data_available pool cbs conn
              result k).written = some (j, b) := by
            simp [subevent_data_available, hacq, hdone, hb]
          rw [hwr]
          exact set_getElem?_self _ _ _ _ hbb
      · intro hcontra
        exact absurd hdone hcontra
    · simp only [subevent_data_available, hacq, if_neg hdone] at hw
      simp only [Option.some.injEq, Prod.mk.injEq] at hw
      obtain ⟨rfl, hb⟩ := hw
      constructor
      · intro hcontra
        exact absurd hcontra hdone
      · intro _
        refine ⟨by rw [← hb]; exact hready, by rw [← hb]; exact hbusy,
          by rw [← hb]; exact hconn, ?_, ?_⟩
        · simp [subevent_data_available, hacq, if_neg hdone]
        · have : (subevent_data_available pool cbs conn result k).pool =
              pool1.set j ((subevent_data_available pool cbs conn
                result k).written.getD (0, b0)).2 := by
            simp [subevent_data_available, hacq, if_neg hdone]
          rw [this]
          have hwr : (subevent_data_available pool cbs conn
              result k).written = some (j, b) := by
            simp [subevent_data_available, hacq, if_neg hdone, hb]
          rw [hwr]
          exact set_getElem?_self _ _ _ _ hbb

/-- A busy buffer mid-ingest, used as the C7 failing input. -/
def busyIngestBuf : RdBuffer :=
  { conn := some 0, ranging_counter := 5, subevent_cursor := 0,
    read_cursor := 0, ready := false, busy := true, acked := false,
    refcount := 0, storage := List.replicate 20 0 }

/-- A subevent result whose procedure done status is aborted (0xF). -/
def abortedResult : SubeventResult :=
  { procedure_counter := 5, config_id := 0, start_acl_conn_event := 0,
    frequency_compensation := 0, procedure_done_status := 15,
    subevent_done_status := 15, procedure_abort_reason := 1,
    subevent_abort_reason := 1, reference_power_level := 0,
    num_steps_reported := 0, step_data_buf := none }

/-- C7 counterexample: an aborted subevent does not free the buffer back to
the pool — after ingesting an aborted procedure the slot is still owned by
the connection and still busy (while, as the claim says, no on-ready callback
fires). -/
theorem subevent_aborted_buffer_not_freed :
    ((subevent_data_available [busyIngestBuf] [0] 0 abortedResult 1).pool[0]?
        |>.map (fun b => (b.conn, b.busy, b.ready)))
      = some (some 0, true, false) ∧
    (subevent_data_available [busyIngestBuf] [0] 0 abortedResult
        1).ready_invocations = [] := by
  constructor <;> decide

/-- Witness for the C7 amended theorem: a complete subevent on the same
concrete input marks the buffer ready and fires the registered callback. -/
theorem subevent_ingest_done_status_witness :
    ((subevent_data_available [busyIngestBuf] [0] 0
        { abortedResult with procedure_done_status := 0 } 1).written =
      some (0, { busyIngestBuf with
        storage := writeBytes busyIngestBuf.storage rangingHeaderLen
          (encodeSubeventHeader
            { abortedResult with procedure_done_status := 0 })
        subevent_cursor := subeventHeaderLen
        ready := true
        busy := false })) ∧
    (subevent_data_available [busyIngestBuf] [0] 0
        { abortedResult with procedure_done_status := 0 }
        1).ready_invocations = [(0, 0, 5)] := by
  refine ⟨by decide, ?_⟩
  have h := subevent_ingest_done_status [busyIngestBuf] [0] 0
    { abortedResult with procedure_done_status := 0 } 1 0
    { busyIngestBuf with
      storage := writeBytes busyIngestBuf.storage rangingHeaderLen
        (encodeSubeventHeader
          { abortedResult with procedure_done_status := 0 })
      subevent_cursor := subeventHeaderLen
      ready := true
      busy := false }
    (by decide)
  exact (h.1 (by decide)).2.2.1

/-- One on-demand ranging-data segment: `struct ras_segment` (1-byte packed
segment header plus data). -/
structure Segment where
  first_seg : Bool
  last_seg : Bool
  seg_counter : Nat
  data : List Nat
  deriving DecidableEq

/-- Result of one `rrsp_chunk_send` invocation: the streamer's buffer and
session state afterwards, the segment given to the notify/indicate pipeline
(`none` when nothing was sent), the counter of a `COMPLETE_RD` response
emitted when the last segment went out, and whether the invocation returned
an error. -/
structure ChunkSendOut where
  active_buf : RdBuffer
  segment_counter : Nat
  streaming : Bool
  sent : Option Segment
  complete_rd : Option Nat
  err : Bool
  deriving DecidableEq

/-- Embedding of `rrsp_chunk_send` (ras_rrsp.c): compute
`max_data_len = ATT_MTU - 4 - 1`, pull up to that many bytes from the active
buffer, build the segment header (`first_seg` iff the read cursor was zero
before the pull, `last_seg` iff fewer bytes than `max_data_len` came back,
`seg_counter` the low 6 bits of the session counter), send it, and only on
send success increment the 16-bit session counter; on send failure rewind the
buffer by the pulled byte count and return the error.  When the last segment
is out, emit `COMPLETE_RD` with the buffer's ranging counter and stop
streaming.  `sendOk` is the outcome of the notify/indicate call. -/
def rrsp_chunk_send (active_buf : RdBuffer) (segment_counter : Nat)
    (streaming : Bool) (mtu : Nat) (sendOk : Bool) : ChunkSendOut :=
  let max_data_len := mtu - (4 + 1)
  let first_seg := decide (active_buf.read_cursor = 0)
  let pulled := bt_ras_rd_buffer_bytes_pull active_buf max_data_len
  let actual_data_len := pulled.2.2
  let last_seg := decide (actual_data_len < max_data_len)
  if actual_data_len ≠ 0 then
    let seg : Segment :=
      { first_seg := first_seg, last_seg := last_seg,
        seg_counter := segment_counter % 64, data := pulled.2.1 }
    if sendOk then
      let ctr := (segment_counter + 1) % 65536
      if last_seg = true then
        { active_buf := pulled.1, segment_counter := ctr, streaming := false,
          sent := some seg, complete_rd := some pulled.1.ranging_counter,
          err := false }
      else
        { active_buf := pulled.1, segment_counter := ctr,
          streaming := streaming, sent := some seg, complete_rd := none,
          err := false }
    else
      { active_buf := bt_ras_rd_buffer_rewind pulled.1 actual_data_len,
        segment_counter := segment_counter, streaming := streaming,
        sent := none, complete_rd := none, err := true }
  else
    if last_seg = true then
      { active_buf := pulled.1, segment_counter := segment_counter,
        streaming := false, sent := none,
        complete_rd := some pulled.1.ranging_counter, err := false }
    else
      { active_buf := pulled.1, segment_counter := segment_counter,
        streaming := streaming, sent := none, complete_rd := none,
        err := false }

/-- C1: for a streamer invocation on an active ready buffer, any emitted
segment has `first_seg` iff `read_cursor` was zero before the pull,
`last_seg` iff the pull returned fewer bytes than `max_data_len = MTU-4-1`,
and `seg_counter` equal to the low 6 bits of the session counter; a segment
is emitted exactly when the pull returns data and the send succeeds; the
session counter is incremented (mod 2^16) iff a segment was sent, and on
send failure the buffer is rewound by the pulled count — restored exactly —
with the counter unchanged. -/
theorem rrsp_chunk_send_spec (buf : RdBuffer) (ctr : Nat) (streaming : Bool)
    (mtu : Nat) (sendOk : Bool) (_hready : buf.ready = true) :
    (∀ seg, (rrsp_chunk_send buf ctr streaming mtu sendOk).sent = some seg →
      (seg.first_seg = true ↔ buf.read_cursor = 0) ∧
      (seg.last_seg = true ↔
        (bt_ras_rd_buffer_bytes_pull buf (mtu - (4 + 1))).2.2 <
          mtu - (4 + 1)) ∧
      seg.seg_counter = ctr % 64 ∧ sendOk = true) ∧
    ((bt_ras_rd_buffer_bytes_pull buf (mtu - (4 + 1))).2.2 ≠ 0 →
      sendOk = true →
      ((rrsp_chunk_send buf ctr streaming mtu sendOk).sent).isSome = true) ∧
    (((rrsp_chunk_send buf ctr streaming mtu sendOk).sent).isSome = true →
      (rrsp_chunk_send buf ctr streaming mtu sendOk).segment_counter =
        (ctr + 1) % 65536) ∧
    ((rrsp_chunk_send buf ctr streaming mtu sendOk).sent = none →
      (rrsp_chunk_send buf ctr streaming mtu sendOk).segment_counter = ctr) ∧
    (sendOk = false →
      (bt_ras_rd_buffer_bytes_pull buf (mtu - (4 + 1))).2.2 ≠ 0 →
      (rrsp_chunk_send buf ctr streaming mtu sendOk).sent = none ∧
      (rrsp_chunk_send buf ctr streaming mtu sendOk).err = true ∧
      (rrsp_chunk_send buf ctr streaming mtu sendOk).active_buf = buf) := by
  have hrestore : bt_ras_rd_buffer_rewind
      (bt_ras_rd_buffer_bytes_pull buf (mtu - (4 + 1))).1
      (bt_ras_rd_buffer_bytes_pull buf (mtu - (4 + 1))).2.2 = buf :=
    pull_then_rewind_eq buf (mtu - (4 + 1))
  by_cases hzero : (bt_ras_rd_buffer_bytes_pull buf (mtu - (4 + 1))).2.2 = 0
  · have hsent : (rrsp_chunk_send buf ctr streaming mtu sendOk).sent = none
        := by
      simp only [rrsp_chunk_send, hzero]
      simp only [ne_eq, not_true_eq_false, if_false]
      split <;> rfl
    have hctr : (rrsp_chunk_send buf ctr streaming mtu sendOk).segment_counter
        = ctr := by
      simp only [rrsp_chunk_send, hzero]
      simp only [ne_eq, not_true_eq_false, if_false]
      split <;> rfl
    refine ⟨?_, ?_, ?_, ?_, ?_⟩
    · intro seg hs
      rw [hsent] at hs
      cases hs
    · intro h _
      exact absurd hzero h
    · intro hs
      rw [hsent] at hs
      simp at hs
    · intro _
      exact hctr
    · intro _ hne
      exact absurd hzero hne
  · rcases sendOk with _ | _
    · simp [rrsp_chunk_send, hzero, hrestore]
    · by_cases hlast :
        (bt_ras_rd_buffer_bytes_pull buf (mtu - (4 + 1))).2.2 < mtu - (4 + 1)
      · simp [rrsp_chunk_send, hzero, hlast]
      · simp [rrsp_chunk_send, hzero, hlast]

/-- Witness for C1: a concrete ready buffer streamed with MTU 23, send
succeeding. -/
theorem rrsp_chunk_send_spec_witness :
    (rrsp_chunk_send (evictableBuf 9) 64 true 23 true).sent =
      some { first_seg := true, last_seg := true, seg_counter := 0,
             data := [1, 2, 3, 4, 5, 6, 7, 8] } ∧
    (rrsp_chunk_send (evictableBuf 9) 64 true 23 true).segment_counter = 65
    := by
  have h := rrsp_chunk_send_spec (evictableBuf 9) 64 true 23 true rfl
  refine ⟨by decide, ?_⟩
  have hsent := h.2.1 (by decide) rfl
  exact h.2.2.1 hsent

/-- The RRSP per-connection command/streaming state touched by the RAS-CP
handler: the claimed active buffer (`none` or a pool index — the
`active_buf` pointer), the session segment counter and the streaming flag. -/
structure RrspCtx where
  active_buf : Option Nat
  segment_counter : Nat
  streaming : Bool
  deriving DecidableEq

/-- Little-endian 16-bit parameter of a RAS-CP command
(`net_buf_simple_pull_le16`). -/
def rascpParamLe16 (params : List Nat) : Nat :=
  params.headD 0 + 256 * (params.tail.headD 0)

/-- Embedding of `rrsp_rascp_cmd_handle` together with `start_streaming`
(ras_rrsp_rascp.c).  `cmd` is the copied RAS-CP write payload
(`rascp_cmd_buf[0..rascp_cmd_len)`); the result is the updated context, the
updated buffer pool and the `RSP_CODE` value sent back over the control
point. -/
def rrsp_rascp_cmd_handle (ctx : RrspCtx) (pool : List RdBuffer)
    (conn : Nat) (cmd : List Nat) : RrspCtx × List RdBuffer × Nat :=
  let opcode := cmd.headD 0
  let params := cmd.tail
  let param_len := min params.length 4
  if ctx.streaming = true then (ctx, pool, RASCP_RESPONSE_SERVER_BUSY)
  else if opcode = 0 then
    if param_len ≠ 2 then (ctx, pool, RASCP_RESPONSE_INVALID_PARAMETER)
    else
      let ranging_counter := rascpParamLe16 params
      if ctx.active_buf ≠ none then (ctx, pool, RASCP_RESPONSE_SERVER_BUSY)
      else if bt_ras_rd_buffer_ready_check pool conn ranging_counter = false
      then (ctx, pool, RASCP_RESPONSE_NO_RECORDS_FOUND)
      else
        let claimed := bt_ras_rd_buffer_claim pool conn ranging_counter
        ({ active_buf := claimed.2, segment_counter := 0, streaming := true },
         claimed.1, RASCP_RESPONSE_SUCCESS)
  else if opcode = 1 then
    if param_len ≠ 2 then (ctx, pool, RASCP_RESPONSE_INVALID_PARAMETER)
    else
      let ranging_counter := rascpParamLe16 params
      match ctx.active_buf with
      | none => (ctx, pool, RASCP_RESPONSE_NO_RECORDS_FOUND)
      | some i =>
        match pool[i]? with
        | none => (ctx, pool, RASCP_RESPONSE_NO_RECORDS_FOUND)
        | some b =>
          if b.ranging_counter ≠ ranging_counter then
            (ctx, pool, RASCP_RESPONSE_NO_RECORDS_FOUND)
          else
            let released := bt_ras_rd_buffer_release { b with acked := true }
            ({ ctx with active_buf := none }, pool.set i released.1,
             RASCP_RESPONSE_SUCCESS)
  else (ctx, pool, RASCP_RESPONSE_OPCODE_NOT_SUPPORTED)

/-- C3: the `GET_RD` decision chain.  Streaming contexts answer
`SERVER_BUSY`; a parameter length other than 2 answers `INVALID_PARAMETER`;
a present `active_buf` answers `SERVER_BUSY`; a missing ready-and-not-busy
buffer for `(conn, counter)` answers `NO_RECORDS_FOUND`; otherwise `SUCCESS`
is sent, the buffer is claimed into `active_buf` (refcount incremented), the
segment counter is reset to 0 and streaming starts.  In every rejection the
context and pool are unchanged. -/
theorem rascp_get_rd_spec (ctx : RrspCtx) (pool : List RdBuffer)
    (conn : Nat) (cmd : List Nat) (hop : cmd.headD 0 = 0) :
    (ctx.streaming = true →
      rrsp_rascp_cmd_handle ctx pool conn cmd =
        (ctx, pool, RASCP_RESPONSE_SERVER_BUSY)) ∧
    (ctx.streaming = false → min cmd.tail.length 4 ≠ 2 →
      rrsp_rascp_cmd_handle ctx pool conn cmd =
        (ctx, pool, RASCP_RESPONSE_INVALID_PARAMETER)) ∧
    (ctx.streaming = false → min cmd.tail.length 4 = 2 →
      ctx.active_buf ≠ none →
      rrsp_rascp_cmd_handle ctx pool conn cmd =
        (ctx, pool, RASCP_RESPONSE_SERVER_BUSY)) ∧
    (ctx.streaming = false → min cmd.tail.length 4 = 2 →
      ctx.active_buf = none →
      bt_ras_rd_buffer_ready_check pool conn (rascpParamLe16 cmd.tail)
        = false →
      rrsp_rascp_cmd_handle ctx pool conn cmd =
        (ctx, pool, RASCP_RESPONSE_NO_RECORDS_FOUND)) ∧
    (ctx.streaming = false → min cmd.tail.length 4 = 2 →
      ctx.active_buf = none →
      bt_ras_rd_buffer_ready_check pool conn (rascpParamLe16 cmd.tail)
        = true →
      rrsp_rascp_cmd_handle ctx pool conn cmd =
        ({ active_buf :=
             (bt_ras_rd_buffer_claim pool conn
               (rascpParamLe16 cmd.tail)).2,
           segment_counter := 0, streaming := true },
         (bt_ras_rd_buffer_claim pool conn (rascpParamLe16 cmd.tail)).1,
         RASCP_RESPONSE_SUCCESS) ∧
      (bt_ras_rd_buffer_claim pool conn (rascpParamLe16 cmd.tail)).2
        ≠ none) := by
  have hop' : cmd.head?.getD 0 = 0 := by simpa using hop
  refine ⟨?_, ?_, ?_, ?_, ?_⟩
  · intro hs
    simp [rrsp_rascp_cmd_handle, hs]
  · intro hs hlen
    have hlen' : ¬ (cmd.length - 1) ⊓ 4 = 2 := by simpa using hlen
    simp [rrsp_rascp_cmd_handle, hs, hop', hlen']
  · intro hs hlen hab
    have hlen' : (cmd.length - 1) ⊓ 4 = 2 := by simpa using hlen
    simp [rrsp_rascp_cmd_handle, hs, hop', hlen', hab]
  · intro hs hlen hab hrc
    have hlen' : (cmd.length - 1) ⊓ 4 = 2 := by simpa using hlen
    simp [rrsp_rascp_cmd_handle, hs, hop', hlen', hab, hrc]
  · intro hs hlen hab hrc
    have hlen' : (cmd.length - 1) ⊓ 4 = 2 := by simpa using hlen
    constructor
    · simp [rrsp_rascp_cmd_handle, hs, hop', hlen', hab, hrc]
    · simp only [bt_ras_rd_buffer_ready_check, Option.isSome_iff_exists]
        at hrc
      rcases hrc with ⟨i, hi⟩
      simp only [bt_ras_rd_buffer_claim, hi]
      rcases buffer_get_sound conn (rascpParamLe16 cmd.tail) true false
        pool i hi with ⟨b, hb, -⟩
      simp [hb]

/-- Witness for C3 at a concrete ready pool: a well-formed `GET_RD` claims
the buffer and answers `SUCCESS`. -/
theorem rascp_get_rd_spec_witness :
    rrsp_rascp_cmd_handle
        { active_buf := none, segment_counter := 5, streaming := false }
        [evictableBuf 9] 0 [0, 9, 0] =
      ({ active_buf := some 0, segment_counter := 0, streaming := true },
       [{ evictableBuf 9 with refcount := 1 }], RASCP_RESPONSE_SUCCESS) := by
  have h := (rascp_get_rd_spec
    { active_buf := none, segment_counter := 5, streaming := false }
    [evictableBuf 9] 0 [0, 9, 0] rfl).2.2.2.2 rfl (by decide) rfl (by decide)
  rw [h.1]
  decide

/-- C4: the `ACK_RD` decision chain on a non-streaming context with a 2-byte
parameter.  Without an active buffer, or when the active buffer's ranging
counter differs from the payload counter, the answer is `NO_RECORDS_FOUND`
and both context and pool are unchanged; otherwise the buffer's `acked` flag
is set, its refcount is decremented (the claim released), `active_buf`
becomes `none` and `SUCCESS` is sent. -/
theorem rascp_ack_rd_spec (ctx : RrspCtx) (pool : List RdBuffer)
    (conn : Nat) (cmd : List Nat) (hop : cmd.headD 0 = 1)
    (hs : ctx.streaming = false) (hlen : min cmd.tail.length 4 = 2) :
    (ctx.active_buf = none →
      rrsp_rascp_cmd_handle ctx pool conn cmd =
        (ctx, pool, RASCP_RESPONSE_NO_RECORDS_FOUND)) ∧
    (∀ i b, ctx.active_buf = some i → pool[i]? = some b →
      b.ranging_counter ≠ rascpParamLe16 cmd.tail →
      rrsp_rascp_cmd_handle ctx pool conn cmd =
        (ctx, pool, RASCP_RESPONSE_NO_RECORDS_FOUND)) ∧
    (∀ i b, ctx.active_buf = some i → pool[i]? = some b →
      b.ranging_counter = rascpParamLe16 cmd.tail → 1 ≤ b.refcount →
      rrsp_rascp_cmd_handle ctx pool conn cmd =
        ({ ctx with active_buf := none },
         pool.set i { b with acked := true, refcount := b.refcount - 1 },
         RASCP_RESPONSE_SUCCESS)) := by
  have hop' : cmd.head?.getD 0 = 1 := by simpa using hop
  have hop1 : ¬ cmd.head?.getD 0 = 0 := by rw [hop']; decide
  have hlen' : (cmd.length - 1) ⊓ 4 = 2 := by simpa using hlen
  refine ⟨?_, ?_, ?_⟩
  · intro hab
    simp [rrsp_rascp_cmd_handle, hs, hop', hop1, hlen', hab]
  · intro i b hab hb hne
    simp [rrsp_rascp_cmd_handle, hs, hop', hop1, hlen', hab, hb, hne]
  · intro i b hab hb heq hrc
    have hrc0 : ¬ ({ b with acked := true } : RdBuffer).refcount = 0 := by
      simp
      omega
    simp [rrsp_rascp_cmd_handle, hs, hop', hop1, hlen', hab, hb, heq,
      bt_ras_rd_buffer_release, hrc0]

/-- Witness for C4: ACKing the claimed buffer at a concrete state. -/
theorem rascp_ack_rd_spec_witness :
    rrsp_rascp_cmd_handle
        { active_buf := some 0, segment_counter := 3, streaming := false }
        [{ evictableBuf 9 with refcount := 1 }] 0 [1, 9, 0] =
      ({ active_buf := none, segment_counter := 3, streaming := false },
       [{ evictableBuf 9 with acked := true, refcount := 0 }],
       RASCP_RESPONSE_SUCCESS) := by
  have h := (rascp_ack_rd_spec
    { active_buf := some 0, segment_counter := 3, streaming := false }
    [{ evictableBuf 9 with refcount := 1 }] 0 [1, 9, 0] rfl rfl
    (by decide)).2.2 0 { evictableBuf 9 with refcount := 1 } rfl rfl
    (by decide) (by decide)
  rw [h]
  decide

/-- RREQ RAS-CP state (`enum bt_ras_rreq_cp_state`). -/
inductive CpState where
  | stateNone
  | getRdWritten
  | ackRdWritten
  deriving DecidableEq

/-- RREQ in-progress reception state (the `on_demand_rd` part of
`struct bt_ras_rreq`).  The caller-supplied `net_buf_simple` output buffer is
modelled by its accumulated bytes `out_data` and total capacity
`out_capacity` (tailroom = capacity minus length). -/
structure OnDemandRd where
  data_get_in_progress : Bool
  counter_in_progress : Nat
  next_expected_segment_counter : Nat
  last_segment_received : Bool
  error_with_data_receive : Bool
  out_data : List Nat
  out_capacity : Nat
  deriving DecidableEq

/-- RREQ per-connection context: control-point state plus reception state. -/
structure Rreq where
  cp_state : CpState
  on_demand_rd : OnDemandRd
  deriving DecidableEq

/-- Embedding of `ras_on_demand_ranging_data_notify_func`: validate and
append one incoming On-demand RD segment.  `data` is the notification
payload (1-byte segmentation header then ranging data). -/
def ras_on_demand_ranging_data_notify_func (r : Rreq) (data : List Nat) :
    Rreq :=
  let od := r.on_demand_rd
  if od.data_get_in_progress = false then r
  else if data.length < 2 then
    { r with on_demand_rd := { od with error_with_data_receive := true } }
  else if od.last_segment_received = true then r
  else if od.error_with_data_receive = true then r
  else
    let segmentation_header := data.headD 0 % 256
    let first_segment := segmentation_header % 2 = 1
    let last_segment := segmentation_header / 2 % 2 = 1
    let rolling_segment_counter := segmentation_header / 4
    if first_segment ∧ rolling_segment_counter ≠ 0 then
      { r with on_demand_rd := { od with error_with_data_receive := true } }
    else if od.next_expected_segment_counter ≠ rolling_segment_counter then
      { r with on_demand_rd := { od with error_with_data_receive := true } }
    else
      let payload := data.tail
      if od.out_capacity - od.out_data.length < payload.length then
        { r with on_demand_rd :=
            { od with error_with_data_receive := true } }
      else
        { r with on_demand_rd :=
            { od with
              out_data := od.out_data ++ payload
              last_segment_received :=
                if last_segment then true else od.last_segment_received
              next_expected_segment_counter :=
                (rolling_segment_counter + 1) % 64 } }

/-- Embedding of `data_receive_finished`: flag missing segments as an error,
clear the in-progress flag and invoke the completion callback.  Returns the
context and the callback's `err` argument (0 or `-EINVAL`). -/
def data_receive_finished (r : Rreq) : Rreq × Int :=
  let od := r.on_demand_rd
  let od :=
    if od.last_segment_received = false then
      { od with error_with_data_receive := true }
    else od
  let error_code : Int := if od.error_with_data_receive = true then -22 else 0
  ({ r with on_demand_rd := { od with data_get_in_progress := false } },
   error_code)

/-- Embedding of `handle_rsp_code`: dispatch a `RSP_CODE` control-point
indication on the current RAS-CP state.  The second component is the
completion-callback invocation, when one happened. -/
def handle_rsp_code (code : Nat) (r : Rreq) : Rreq × Option Int :=
  match r.cp_state with
  | CpState.stateNone =>
    if r.on_demand_rd.data_get_in_progress = true ∧
       code = RASCP_RESPONSE_PROCEDURE_NOT_COMPLETED then
      let r1 := { r with on_demand_rd :=
        { r.on_demand_rd with error_with_data_receive := true } }
      let fin := data_receive_finished r1
      (fin.1, some fin.2)
    else (r, none)
  | CpState.getRdWritten =>
    let r1 := { r with cp_state := CpState.stateNone }
    if code ≠ RASCP_RESPONSE_SUCCESS then
      let r2 := { r1 with on_demand_rd :=
        { r1.on_demand_rd with error_with_data_receive := true } }
      let fin := data_receive_finished r2
      (fin.1, some fin.2)
    else (r1, none)
  | CpState.ackRdWritten =>
    let r1 := { r with cp_state := CpState.stateNone }
    let fin := data_receive_finished r1
    (fin.1, some fin.2)

/-- Embedding of the `COMPLETE_RD` arm of `ras_cp_notify_func` together with
`ack_ranging_data`: when a GET is in progress for this counter, write
`ACK_RD` to the control point; on write success move to `ackRdWritten`.
`writeOk` is the outcome of `bt_gatt_write_without_response`. -/
def handle_complete_rd (counter : Nat) (writeOk : Bool) (r : Rreq) : Rreq :=
  if r.on_demand_rd.data_get_in_progress = false ∨
     r.on_demand_rd.counter_in_progress ≠ counter then r
  else if writeOk then { r with cp_state := CpState.ackRdWritten }
  else r

/-- Embedding of `ranging_data_overwritten_notify_func` for the counter
currently being received: while a RAS-CP write is outstanding the handler
holds off; otherwise it aborts the receive with an error.  (Notifications for
other counters go to the application's overwritten callback and do not touch
this state.)  The second component is the completion-callback invocation. -/
def handle_overwritten (counter : Nat) (r : Rreq) : Rreq × Option Int :=
  if r.on_demand_rd.data_get_in_progress = true ∧
     r.on_demand_rd.counter_in_progress = counter then
    if r.cp_state ≠ CpState.stateNone then (r, none)
    else
      let r1 := { r with on_demand_rd :=
        { r.on_demand_rd with error_with_data_receive := true } }
      let fin := data_receive_finished r1
      (fin.1, some fin.2)
  else (r, none)

/-- Embedding of `bt_ras_rreq_cp_get_ranging_data`: reject when busy, else
initialise the reception state, write `GET_RD` (outcome `writeOk`) and move
to `getRdWritten`.  Returns the context and the function's return value. -/
def bt_ras_rreq_cp_get_ranging_data (r : Rreq) (ranging_counter cap : Nat)
    (writeOk : Bool) : Rreq × Int :=
  if r.cp_state ≠ CpState.stateNone ∨
     r.on_demand_rd.data_get_in_progress = true then (r, -16)
  else
    let od : OnDemandRd :=
      { data_get_in_progress := true
        counter_in_progress := ranging_counter
        next_expected_segment_counter := 0
        last_segment_received := false
        error_with_data_receive := false
        out_data := []
        out_capacity := cap }
    if writeOk then
      ({ cp_state := CpState.getRdWritten, on_demand_rd := od }, 0)
    else ({ cp_state := r.cp_state, on_demand_rd := od }, -5)

/-- The events delivered to an RREQ context after a GET was written: an
On-demand RD notification, a `COMPLETE_RD` control-point indication (with
the outcome of the triggered ACK write), a `RSP_CODE` indication, and an
RD-Overwritten notification. -/
inductive RreqEvent where
  | segment (data : List Nat)
  | completeRd (counter : Nat) (ackWriteOk : Bool)
  | rspCode (code : Nat)
  | overwritten (counter : Nat)

/-- Dispatch one event to the RREQ context; the second component is the
completion-callback invocation performed while handling it, if any. -/
def rreq_step (r : Rreq) (e : RreqEvent) : Rreq × Option Int :=
  match e with
  | RreqEvent.segment data =>
    (ras_on_demand_ranging_data_notify_func r data, none)
  | RreqEvent.completeRd counter writeOk =>
    (handle_complete_rd counter writeOk r, none)
  | RreqEvent.rspCode code => handle_rsp_code code r
  | RreqEvent.overwritten counter => handle_overwritten counter r

/-- Run a list of events, collecting every completion-callback invocation in
order. -/
def rreq_run (r : Rreq) : List RreqEvent → Rreq × List Int
  | [] => (r, [])
  | e :: es =>
    let s := rreq_step r e
    let rest := rreq_run s.1 es
    (rest.1, s.2.toList ++ rest.2)

/-- C2: handling of one well-formed incoming segment while a GET is in
progress, no error has occurred and the last segment has not been received.
With header byte `h`: when the rolling counter `h / 4` equals
`next_expected_segment_counter`, a set `first_seg` bit implies the counter is
0, and the output buffer has tailroom for the payload, the payload is
appended, `last_segment_received` is set exactly when `last_seg` is set, and
the expected counter advances to `(counter + 1) mod 64`; in every other case
`error_with_data_receive` is set and the output buffer is unchanged. -/
theorem on_demand_segment_spec (r : Rreq) (data : List Nat)
    (hprog : r.on_demand_rd.data_get_in_progress = true)
    (herr : r.on_demand_rd.error_with_data_receive = false)
    (hlast : r.on_demand_rd.last_segment_received = false)
    (hlen : 2 ≤ data.length) :
    ((data.headD 0 % 256) / 4 = r.on_demand_rd.next_expected_segment_counter
      →
     ((data.headD 0 % 256) % 2 = 1 → (data.headD 0 % 256) / 4 = 0) →
     data.tail.length ≤
       r.on_demand_rd.out_capacity - r.on_demand_rd.out_data.length →
     ((ras_on_demand_ranging_data_notify_func r data).on_demand_rd.out_data
        = r.on_demand_rd.out_data ++ data.tail ∧
      ((ras_on_demand_ranging_data_notify_func r
          data).on_demand_rd.last_segment_received = true ↔
        (data.headD 0 % 256) / 2 % 2 = 1) ∧
      (ras_on_demand_ranging_data_notify_func r
          data).on_demand_rd.next_expected_segment_counter =
        ((data.headD 0 % 256) / 4 + 1) % 64 ∧
      (ras_on_demand_ranging_data_notify_func r
          data).on_demand_rd.error_with_data_receive = false)) ∧
    (¬ ((data.headD 0 % 256) / 4 =
          r.on_demand_rd.next_expected_segment_counter ∧
        ((data.headD 0 % 256) % 2 = 1 → (data.headD 0 % 256) / 4 = 0) ∧
        data.tail.length ≤
          r.on_demand_rd.out_capacity - r.on_demand_rd.out_data.length) →
     ((ras_on_demand_ranging_data_notify_func r
          data).on_demand_rd.error_with_data_receive = true ∧
      (ras_on_demand_ranging_data_notify_func r data).on_demand_rd.out_data
        = r.on_demand_rd.out_data)) := by
  have hlen2 : ¬ data.length < 2 := by omega
  simp only [List.headD_eq_head?_getD, List.length_tail] at *
  constructor
  · intro hctr hfirst htr
    have hc1 : ¬ ((data.head?.getD 0 % 256) % 2 = 1 ∧
        ¬ (data.head?.getD 0 % 256) / 4 = 0) := by tauto
    have hc2 : r.on_demand_rd.next_expected_segment_counter =
        (data.head?.getD 0 % 256) / 4 := hctr.symm
    have hc3 : ¬ (r.on_demand_rd.out_capacity -
        r.on_demand_rd.out_data.length < data.length - 1) := by omega
    by_cases hl : (data.head?.getD 0 % 256) / 2 % 2 = 1
    · simp [ras_on_demand_ranging_data_notify_func, hprog, hlen2, hlast,
        herr, hc1, hc2, hc3, hl]
    · simp [ras_on_demand_ranging_data_notify_func, hprog, hlen2, hlast,
        herr, hc1, hc2, hc3, hl]
  · intro hfail
    by_cases hc1 : (data.head?.getD 0 % 256) % 2 = 1 ∧
        ¬ (data.head?.getD 0 % 256) / 4 = 0
    · simp [ras_on_demand_ranging_data_notify_func, hprog, hlen2, hlast,
        herr, hc1]
    · by_cases hc2 : r.on_demand_rd.next_expected_segment_counter =
          (data.head?.getD 0 % 256) / 4
      · by_cases hc3 : r.on_demand_rd.out_capacity -
            r.on_demand_rd.out_data.length < data.length - 1
        · simp [ras_on_demand_ranging_data_notify_func, hprog, hlen2, hlast,
            herr, hc1, hc2, hc3]
        · exfalso
          apply hfail
          refine ⟨hc2.symm, fun hbit => by tauto, by omega⟩
      · simp [ras_on_demand_ranging_data_notify_func, hprog, hlen2, hlast,
          herr, hc1, hc2]

/-- Witness for C2: an in-order first segment with payload `[42]` is appended
and the expected counter advances to 1. -/
theorem on_demand_segment_spec_witness :
    (ras_on_demand_ranging_data_notify_func
        { cp_state := CpState.stateNone,
          on_demand_rd :=
            { data_get_in_progress := true, counter_in_progress := 9,
              next_expected_segment_counter := 0,
              last_segment_received := false,
              error_with_data_receive := false, out_data := [],
              out_capacity := 8 } }
        [1, 42]).on_demand_rd.out_data = [42] := by
  have h := (on_demand_segment_spec
    { cp_state := CpState.stateNone,
      on_demand_rd :=
        { data_get_in_progress := true, counter_in_progress := 9,
          next_expected_segment_counter := 0,
          last_segment_received := false, error_with_data_receive := false,
          out_data := [], out_capacity := 8 } }
    [1, 42] rfl rfl rfl (by decide)).1 (by decide) (fun _ => by decide)
    (by decide)
  simpa using h.1

/-- Invariant of the RREQ context maintained by the event handlers: whenever
a RAS-CP write is outstanding, a GET is in progress. -/
def RreqInv (r : Rreq) : Prop :=
  r.cp_state ≠ CpState.stateNone →
    r.on_demand_rd.data_get_in_progress = true

/-- Behaviour of `data_receive_finished`: it clears the in-progress flag,
keeps the RAS-CP state, and reports 0 exactly when the last segment arrived
and no receive error was recorded, `-EINVAL` otherwise. -/
theorem data_receive_finished_spec (r : Rreq) :
    (data_receive_finished r).1.on_demand_rd.data_get_in_progress = false ∧
    (data_receive_finished r).1.cp_state = r.cp_state ∧
    ((data_receive_finished r).2 = 0 ∨ (data_receive_finished r).2 = -22) ∧
    ((data_receive_finished r).2 = 0 ↔
      ((data_receive_finished
          r).1.on_demand_rd.last_segment_received = true ∧
       (data_receive_finished
          r).1.on_demand_rd.error_with_data_receive = false)) := by
  by_cases hl : r.on_demand_rd.last_segment_received = false
  · simp [data_receive_finished, hl]
  · have hl' : r.on_demand_rd.last_segment_received = true := by
      simpa using hl
    by_cases he : r.on_demand_rd.error_with_data_receive = true
    · simp [data_receive_finished, hl', he]
    · have he' : r.on_demand_rd.error_with_data_receive = false := by
        simpa using he
      simp [data_receive_finished, hl', he']

/-- When no GET is in progress and the invariant holds, every event leaves
the context unchanged and invokes no callback. -/
theorem rreq_step_frozen (r : Rreq) (e : RreqEvent) (hinv : RreqInv r)
    (hprog : r.on_demand_rd.data_get_in_progress = false) :
    rreq_step r e = (r, none) := by
  have hst : r.cp_state = CpState.stateNone := by
    by_contra h
    rw [hinv h] at hprog
    cases hprog
  cases e with
  | segment data =>
    simp [rreq_step, ras_on_demand_ranging_data_notify_func, hprog]
  | completeRd c ok => simp [rreq_step, handle_complete_rd, hprog]
  | rspCode c => simp [rreq_step, handle_rsp_code, hst, hprog]
  | overwritten c => simp [rreq_step, handle_overwritten, hprog]

/-- When an event invokes the completion callback, afterwards no GET is in
progress and the RAS-CP state is idle, and the delivered error is 0 exactly
when the final state has the last segment received with no receive error
(`-EINVAL` in every other case). -/
theorem rreq_step_emit (r : Rreq) (e : RreqEvent) (r' : Rreq) (err : Int)
    (h : rreq_step r e = (r', some err)) :
    r'.on_demand_rd.data_get_in_progress = false ∧
    r'.cp_state = CpState.stateNone ∧
    (err = 0 ∨ err = -22) ∧
    (err = 0 ↔ (r'.on_demand_rd.last_segment_received = true ∧
                r'.on_demand_rd.error_with_data_receive = false)) := by
  cases e with
  | segment data =>
    simp only [rreq_step, Prod.mk.injEq] at h
    cases h.2
  | completeRd c ok =>
    simp only [rreq_step, Prod.mk.injEq] at h
    cases h.2
  | rspCode c =>
    rcases hst : r.cp_state with _ | _ | _ <;>
      simp only [rreq_step, handle_rsp_code, hst] at h
    · split at h
      · simp only [Prod.mk.injEq, Option.some.injEq] at h
        refine ⟨?_, ?_, ?_, ?_⟩
        · rw [← h.1]
          exact (data_receive_finished_spec _).1
        · rw [← h.1]
          exact (data_receive_finished_spec _).2.1.trans rfl
        · rw [← h.2]
          exact (data_receive_finished_spec _).2.2.1
        · rw [← h.2, ← h.1]
          exact (data_receive_finished_spec _).2.2.2
      · simp only [Prod.mk.injEq] at h
        cases h.2
    · split at h
      · simp only [Prod.mk.injEq, Option.some.injEq] at h
        refine ⟨?_, ?_, ?_, ?_⟩
        · rw [← h.1]
          exact (data_receive_finished_spec _).1
        · rw [← h.1]
          exact (data_receive_finished_spec _).2.1.trans rfl
        · rw [← h.2]
          exact (data_receive_finished_spec _).2.2.1
        · rw [← h.2, ← h.1]
          exact (data_receive_finished_spec _).2.2.2
      · simp only [Prod.mk.injEq] at h
        cases h.2
    · simp only [Prod.mk.injEq, Option.some.injEq] at h
      refine ⟨?_, ?_, ?_, ?_⟩
      · rw [← h.1]
        exact (data_receive_finished_spec _).1
      · rw [← h.1]
        exact (data_receive_finished_spec _).2.1.trans rfl
      · rw [← h.2]
        exact (data_receive_finished_spec _).2.2.1
      · rw [← h.2, ← h.1]
        exact (data_receive_finished_spec _).2.2.2
  | overwritten c =>
    simp only [rreq_step, handle_overwritten] at h
    split at h
    · split at h
      · simp only [Prod.mk.injEq] at h
        cases h.2
      · rename_i hstate
        have hst : r.cp_state = CpState.stateNone := by
          by_contra hc
          exact hstate hc
        simp only [Prod.mk.injEq, Option.some.injEq] at h
        refine ⟨?_, ?_, ?_, ?_⟩
        · rw [← h.1]
          exact (data_receive_finished_spec _).1
        · rw [← h.1]
          exact (data_receive_finished_spec _).2.1.trans hst
        · rw [← h.2]
          exact (data_receive_finished_spec _).2.2.1
        · rw [← h.2, ← h.1]
          exact (data_receive_finished_spec _).2.2.2
    · simp only [Prod.mk.injEq] at h
      cases h.2

/-- Events that invoke no callback preserve the invariant. -/
theorem rreq_step_none_inv (r : Rreq) (e : RreqEvent) (r' : Rreq)
    (h : rreq_step r e = (r', none)) (hinv : RreqInv r) : RreqInv r' := by
  cases e with
  | segment data =>
    simp only [rreq_step, Prod.mk.injEq] at h
    have hkeep :
        (ras_on_demand_ranging_data_notify_func r data).cp_state =
          r.cp_state ∧
        (ras_on_demand_ranging_data_notify_func
          r data).on_demand_rd.data_get_in_progress =
          r.on_demand_rd.data_get_in_progress := by
      simp only [ras_on_demand_ranging_data_notify_func]
      refine ⟨?_, ?_⟩ <;> (repeat' split) <;> rfl
    rw [← h.1]
    intro hne
    rw [hkeep.2]
    exact hinv (by rw [← hkeep.1]; exact hne)
  | completeRd c ok =>
    simp only [rreq_step, Prod.mk.injEq] at h
    rw [← h.1]
    unfold handle_complete_rd
    split_ifs with h1 h2
    · exact hinv
    · intro _
      rcases not_or.mp h1 with ⟨hp, -⟩
      simpa using hp
    · exact hinv
  | rspCode c =>
    rcases hst : r.cp_state with _ | _ | _ <;>
      simp only [rreq_step, handle_rsp_code, hst] at h
    · split at h
      · simp only [Prod.mk.injEq] at h
        cases h.2
      · simp only [Prod.mk.injEq, and_true] at h
        rw [← h]
        exact hinv
    · split at h
      · simp only [Prod.mk.injEq] at h
        cases h.2
      · simp only [Prod.mk.injEq, and_true] at h
        rw [← h]
        intro hne
        simp at hne
    · simp only [Prod.mk.injEq] at h
      cases h.2
  | overwritten c =>
    simp only [rreq_step, handle_overwritten] at h
    split at h
    · split at h
      · simp only [Prod.mk.injEq, and_true] at h
        rw [← h]
        exact hinv
      · simp only [Prod.mk.injEq] at h
        cases h.2
    · simp only [Prod.mk.injEq, and_true] at h
      rw [← h]
      exact hinv

/-- A context with no GET in progress stays frozen over any event trace. -/
theorem rreq_run_frozen (es : List RreqEvent) (r : Rreq) (hinv : RreqInv r)
    (hprog : r.on_demand_rd.data_get_in_progress = false) :
    rreq_run r es = (r, []) := by
  induction es with
  | nil => rfl
  | cons e es ih =>
    simp only [rreq_run, rreq_step_frozen r e hinv hprog]
    simp [ih]

/-- Over any event trace from a state satisfying the invariant, the
completion callback fires at most once, only with 0 or `-EINVAL`, and with 0
exactly when the final state has the complete data (last segment received,
no receive error). -/
theorem rreq_run_at_most_once (es : List RreqEvent) (r : Rreq)
    (hinv : RreqInv r) :
    (rreq_run r es).2.length ≤ 1 ∧
    ∀ err ∈ (rreq_run r es).2,
      (err = 0 ∨ err = -22) ∧
      (err = 0 ↔
        ((rreq_run r es).1.on_demand_rd.last_segment_received = true ∧
         (rreq_run r es).1.on_demand_rd.error_with_data_receive = false))
    := by
  induction es generalizing r with
  | nil => simp [rreq_run]
  | cons e es ih =>
    rcases hstep : rreq_step r e with ⟨r', o⟩
    rcases o with _ | err
    · have hinv' : RreqInv r' := rreq_step_none_inv r e r' hstep hinv
      have := ih r' hinv'
      simpa [rreq_run, hstep] using this
    · rcases rreq_step_emit r e r' err hstep with ⟨hprog', hst', herr, hiff⟩
      have hinv' : RreqInv r' := by
        intro hne
        exact absurd hst' hne
      have hfrozen := rreq_run_frozen es r' hinv' hprog'
      refine ⟨?_, ?_⟩
      · simp [rreq_run, hstep, hfrozen]
      · intro e' he'
        simp only [rreq_run, hstep, hfrozen] at he' ⊢
        simp at he'
        subst he'
        exact ⟨herr, by simpa [rreq_run, hstep, hfrozen] using hiff⟩

/-- C8: for every GET initiated through `bt_ras_rreq_cp_get_ranging_data`
(idle context, write succeeds), along any following event trace the
completion callback is invoked at most once, its error is 0 exactly when the
receive ended with `last_segment_received` and no receive error and is
`-EINVAL` in every other case (so partially delivered data is never reported
as success); and processing the RAS-CP response to the ACK write
(`RSP_CODE` in state `ackRdWritten`) always invokes it, so a completed
handshake invokes it exactly once. -/
theorem rreq_get_complete_callback :
    (∀ (r : Rreq) (counter cap : Nat) (es : List RreqEvent),
      r.cp_state = CpState.stateNone →
      r.on_demand_rd.data_get_in_progress = false →
      ((rreq_run
          (bt_ras_rreq_cp_get_ranging_data r counter cap true).1
          es).2.length ≤ 1 ∧
       ∀ err ∈ (rreq_run
          (bt_ras_rreq_cp_get_ranging_data r counter cap true).1 es).2,
         (err = 0 ∨ err = -22) ∧
         (err = 0 ↔
           ((rreq_run (bt_ras_rreq_cp_get_ranging_data r counter cap
              true).1 es).1.on_demand_rd.last_segment_received = true ∧
            (rreq_run (bt_ras_rreq_cp_get_ranging_data r counter cap
              true).1 es).1.on_demand_rd.error_with_data_receive
              = false)))) ∧
    (∀ (r : Rreq) (code : Nat),
      r.cp_state = CpState.ackRdWritten →
      ∃ err, (rreq_step r (RreqEvent.rspCode code)).2 = some err) := by
  constructor
  · intro r counter cap es hst hprog
    apply rreq_run_at_most_once
    intro hne
    simp only [bt_ras_rreq_cp_get_ranging_data, hst, hprog] at hne ⊢
    simp at hne ⊢
  · intro r code hst
    simp [rreq_step, handle_rsp_code, hst, data_receive_finished]

/-- Witness for C8 at a concrete idle context, a one-event trace, and a
concrete `ackRdWritten` context. -/
theorem rreq_get_complete_callback_witness :
    ((rreq_run
        (bt_ras_rreq_cp_get_ranging_data
          { cp_state := CpState.stateNone,
            on_demand_rd :=
              { data_get_in_progress := false, counter_in_progress := 0,
                next_expected_segment_counter := 0,
                last_segment_received := false,
                error_with_data_receive := false, out_data := [],
                out_capacity := 4 } } 9 4 true).1
        [RreqEvent.rspCode 7]).2.length ≤ 1) ∧
    (∃ err, (rreq_step
        { cp_state := CpState.ackRdWritten,
          on_demand_rd :=
            { data_get_in_progress := true, counter_in_progress := 9,
              next_expected_segment_counter := 1,
              last_segment_received := true,
              error_with_data_receive := false, out_data := [3],
              out_capacity := 4 } }
        (RreqEvent.rspCode 1)).2 = some err) := by
  constructor
  · exact (rreq_get_complete_callback.1
      { cp_state := CpState.stateNone,
        on_demand_rd :=
          { data_get_in_progress := false, counter_in_progress := 0,
            next_expected_segment_counter := 0,
            last_segment_received := false,
            error_with_data_receive := false, out_data := [],
            out_capacity := 4 } } 9 4 [RreqEvent.rspCode 7] rfl rfl).1
  · exact rreq_get_complete_callback.2
      { cp_state := CpState.ackRdWritten,
        on_demand_rd :=
          { data_get_in_progress := true, counter_in_progress := 9,
            next_expected_segment_counter := 1,
            last_segment_received := true,
            error_with_data_receive := false, out_data := [3],
            out_capacity := 4 } } 1 rfl

end RAS
